import Mathlib

/-!
Verification of the synthetic hospitality data generator
(notebook wyndham_notebook_02.py of kevin-ippen/hotel-rev-management).

Monetary amounts, rates and multipliers are embedded as rationals (ℚ);
the Python float formatting f-strings with 2 resp. 4 decimal places are
embedded as rounding to the nearest multiple of 1/100 resp. 1/10000,
and Python int() truncation toward zero as truncQ below.
-/

namespace HotelRev

/-- Rounding to two decimal places, the embedding of float(f-string with .2f)
and of SQL ROUND(x, 2). -/
def round2 (q : ℚ) : ℚ := (round (100 * q) : ℚ) / 100

/-- Rounding to four decimal places, the embedding of float(f-string with .4f). -/
def round4 (q : ℚ) : ℚ := (round (10000 * q) : ℚ) / 10000

/-- Truncation toward zero, the embedding of Python int() on a float. -/
def truncQ (q : ℚ) : ℤ := if q < 0 then ⌈q⌉ else ⌊q⌋

theorem round2_dist (q : ℚ) : |round2 q - q| ≤ 1 / 200 := by
  have h := abs_sub_round (100 * q)
  rw [abs_sub_comm] at h
  have h100 : round2 q - q = ((round (100 * q) : ℚ) - 100 * q) / 100 := by
    unfold round2; ring
  rw [h100, abs_div]
  rw [show |(100 : ℚ)| = 100 by norm_num]
  linarith

theorem round2_mono : Monotone round2 := by
  intro a b hab
  unfold round2
  have : round (100 * a) ≤ round (100 * b) := by
    rw [round_eq, round_eq]
    exact Int.floor_mono (by linarith)
  have : ((round (100 * a) : ℤ) : ℚ) ≤ ((round (100 * b) : ℤ) : ℚ) := by exact_mod_cast this
  linarith

theorem truncQ_eq_floor_of_nonneg {q : ℚ} (h : 0 ≤ q) : truncQ q = ⌊q⌋ := by
  unfold truncQ
  rw [if_neg (not_lt.mpr h)]

/-! ### Reference enumerations (brand_profiles, regional_profiles, tiers, types) -/

inductive Seasonality
  | high | moderate | low
  deriving DecidableEq, Repr

inductive Region
  | Northeast | Southeast | West | Southwest | Midwest
  | CentralCanada | EasternCanada | WesternCanada
  deriving DecidableEq, Repr

inductive Brand
  | Super8 | Travelodge | DaysInn | HowardJohnson | Baymont | Ramada | Wingate | Wyndham
  deriving DecidableEq, Repr

inductive MarketTier
  | Primary | Secondary | Tertiary
  deriving DecidableEq, Repr

inductive PropertyType
  | Urban | Suburban | Airport | Highway | Resort | ExtendedStay
  deriving DecidableEq, Repr

/-- Seasonality strength of each region, from regional_profiles. -/
def regionSeasonality : Region → Seasonality
  | .Northeast => .moderate
  | .Southeast => .high
  | .West => .moderate
  | .Southwest => .high
  | .Midwest => .high
  | .CentralCanada => .high
  | .EasternCanada => .high
  | .WesternCanada => .moderate

/-- ADR multiplier of each region, from regional_profiles. -/
def regionAdrMult : Region → ℚ
  | .Northeast => 5/4
  | .Southeast => 11/10
  | .West => 13/10
  | .Southwest => 23/20
  | .Midwest => 1
  | .CentralCanada => 19/20
  | .EasternCanada => 21/20
  | .WesternCanada => 6/5

/-- Base ADR of each brand, from brand_profiles. -/
def brandAdrBase : Brand → ℚ
  | .Super8 => 85
  | .Travelodge => 90
  | .DaysInn => 95
  | .HowardJohnson => 105
  | .Baymont => 115
  | .Ramada => 125
  | .Wingate => 140
  | .Wyndham => 160

/-- Business mix of each brand, from brand_profiles (used for avg_length_of_stay). -/
def brandBusinessMix : Brand → ℚ
  | .Super8 => 3/10
  | .Travelodge => 7/20
  | .DaysInn => 2/5
  | .HowardJohnson => 9/20
  | .Baymont => 1/2
  | .Ramada => 11/20
  | .Wingate => 13/20
  | .Wyndham => 7/10

/-! ### Seasonal and day-of-week multipliers -/

/-- Base seasonal value of get_seasonal_multiplier before regional dampening:
the month pattern followed by the holiday-override if chain, exactly as in the
source (summer months 1.3, winter months 0.75, shoulder 1.0; then Dec day > 20
overridden to 1.4, Nov 22–28 to 1.2, July 4 to 1.5). -/
def seasonalBase (month day : ℕ) : ℚ :=
  let base : ℚ :=
    if month = 6 ∨ month = 7 ∨ month = 8 then 13/10
    else if month = 12 ∨ month = 1 ∨ month = 2 then 3/4
    else 1
  if month = 12 ∧ 20 < day then 7/5
  else if month = 11 ∧ 22 ≤ day ∧ day ≤ 28 then 6/5
  else if month = 7 ∧ day = 4 then 3/2
  else base

/-- Embedding of HospitalityDataGenerator.get_seasonal_multiplier: the base
seasonal value, dampened toward 1.0 by factor 0.7 for moderate-seasonality
regions and 0.5 otherwise (non-high, non-moderate). -/
def seasonalMultiplier (month day : ℕ) (r : Region) : ℚ :=
  match regionSeasonality r with
  | .high => seasonalBase month day
  | .moderate => 1 + (seasonalBase month day - 1) * (7/10)
  | .low => 1 + (seasonalBase month day - 1) * (1/2)

/-- Embedding of get_day_of_week_multiplier (weekday 0 = Monday .. 6 = Sunday). -/
def dowMultiplier (dow : ℕ) (pt : PropertyType) : ℚ :=
  if pt = .Resort ∨ pt = .Urban then
    if dow = 4 ∨ dow = 5 ∨ dow = 6 then 6/5
    else if dow = 0 ∨ dow = 3 then 9/10
    else 4/5
  else
    if dow = 0 ∨ dow = 1 ∨ dow = 2 ∨ dow = 3 then 11/10
    else 9/10

/-- Base seasonal value as the amended C4 claim describes it, overrides first:
Dec 21–31 gives 1.4, Thanksgiving week Nov 22–28 gives 1.2, July 4 gives 1.5;
otherwise months 6–8 give 1.3, months 12, 1 and 2 give 0.75, shoulder months 1.0. -/
def seasonalBaseSpec (month day : ℕ) : ℚ :=
  if month = 12 ∧ 21 ≤ day then 7/5
  else if month = 11 ∧ 22 ≤ day ∧ day ≤ 28 then 6/5
  else if month = 7 ∧ day = 4 then 3/2
  else if 6 ≤ month ∧ month ≤ 8 then 13/10
  else if month ≤ 2 ∨ month = 12 then 3/4
  else 1

/-- Regional dampening toward 1.0, as the spec describes it. -/
def dampenSpec (s : Seasonality) (b : ℚ) : ℚ :=
  match s with
  | .high => b
  | .moderate => 1 + (b - 1) * (7/10)
  | .low => 1 + (b - 1) * (1/2)

/-- C4 counterexample: the claim treats Jan 1–7 as peak, but the code has no
January holiday override, so Jan 1 in a high-seasonality region (Southeast,
undampened) gets the winter-low multiplier 0.75, not the peak 1.3. -/
theorem seasonalMultiplier_jan1_counterexample :
    seasonalMultiplier 1 1 Region.Southeast = 3/4 ∧ (3/4 : ℚ) ≠ 13/10 := by
  constructor
  · norm_num [seasonalMultiplier, seasonalBase, regionSeasonality]
  · norm_num

/-- C4 amended: for every valid calendar month/day and region, the seasonal
multiplier equals the regional dampening of the base pattern with the code's
actual overrides (Dec 21–31 at 1.4, Nov 22–28 at 1.2, July 4 at 1.5; no
January override, and the Dec override starts at Dec 21). -/
theorem seasonalMultiplier_characterization (month day : ℕ) (r : Region)
    (hm1 : 1 ≤ month) (hm2 : month ≤ 12) (hd1 : 1 ≤ day) (hd2 : day ≤ 31) :
    seasonalMultiplier month day r = dampenSpec (regionSeasonality r) (seasonalBaseSpec month day) := by
  have hbase : seasonalBase month day = seasonalBaseSpec month day := by
    simp only [seasonalBase, seasonalBaseSpec]
    split_ifs <;> first | rfl | omega
  unfold seasonalMultiplier dampenSpec
  cases regionSeasonality r <;> rw [hbase]

/-- Witness for the amended C4 claim: July 4 in the Northeast (moderate
seasonality) gives 1 + (1.5 − 1) × 0.7 = 1.35. -/
theorem seasonalMultiplier_characterization_witness :
    seasonalMultiplier 7 4 Region.Northeast =
      dampenSpec (regionSeasonality Region.Northeast) (seasonalBaseSpec 7 4) :=
  seasonalMultiplier_characterization 7 4 Region.Northeast (by norm_num) (by norm_num)
    (by norm_num) (by norm_num)

/-! ### Market events and the (market_id, date) lift lookup -/

structure MarketEvent where
  event_id : String
  market_id : String
  event_date : ℤ
  end_date : Option ℤ
  demand_lift_pct : ℚ
  adr_lift_pct : ℚ
  deriving DecidableEq, Repr

abbrev EventKey := String × ℤ

/-- Key under which generate_daily_performance indexes an event:
the pair (market_id, event_date). -/
def eventKey (e : MarketEvent) : EventKey := (e.market_id, e.event_date)

/-- One step of building the events_by_market_date dictionary: append the event
to the bucket of its key, creating the bucket if absent. -/
def insertEvent (idx : List (EventKey × List MarketEvent)) (e : MarketEvent) :
    List (EventKey × List MarketEvent) :=
  match idx with
  | [] => [(eventKey e, [e])]
  | (k, es) :: rest =>
      if k = eventKey e then (k, es ++ [e]) :: rest
      else (k, es) :: insertEvent rest e

/-- The events_by_market_date dictionary built by the loop over all events. -/
def eventsByMarketDate (events : List MarketEvent) : List (EventKey × List MarketEvent) :=
  events.foldl insertEvent []

/-- Dictionary lookup (empty list when the key is absent). -/
def lookupEvents (idx : List (EventKey × List MarketEvent)) (k : EventKey) :
    List MarketEvent :=
  match idx with
  | [] => []
  | (k2, es) :: rest => if k2 = k then es else lookupEvents rest k

/-- Occupancy lift used by generate_daily_performance for a (market, date):
sum of demand_lift_pct / 100 over the bucket of key (market, date). -/
def eventDemandLift (events : List MarketEvent) (market : String) (d : ℤ) : ℚ :=
  ((lookupEvents (eventsByMarketDate events) (market, d)).map
    (fun e => e.demand_lift_pct / 100)).sum

/-- ADR lift used by generate_daily_performance for a (market, date). -/
def eventAdrLift (events : List MarketEvent) (market : String) (d : ℤ) : ℚ :=
  ((lookupEvents (eventsByMarketDate events) (market, d)).map
    (fun e => e.adr_lift_pct / 100)).sum

/-- Modelled from the spec wording of C5: an event is active on a date when the
date lies between event_date and end_date (end_date defaulting to event_date). -/
def eventActive (e : MarketEvent) (d : ℤ) : Bool :=
  decide (e.event_date ≤ d ∧ d ≤ e.end_date.getD e.event_date)

/-- Occupancy lift as the C5 claim words it: summed over all active events. -/
def activeDemandLift (events : List MarketEvent) (market : String) (d : ℤ) : ℚ :=
  ((events.filter (fun e => decide (e.market_id = market) && eventActive e d)).map
    (fun e => e.demand_lift_pct / 100)).sum

/-- ADR lift as the C5 claim words it: summed over all active events. -/
def activeAdrLift (events : List MarketEvent) (market : String) (d : ℤ) : ℚ :=
  ((events.filter (fun e => decide (e.market_id = market) && eventActive e d)).map
    (fun e => e.adr_lift_pct / 100)).sum

theorem lookup_insertEvent (idx : List (EventKey × List MarketEvent))
    (e : MarketEvent) (k : EventKey) :
    lookupEvents (insertEvent idx e) k =
      if eventKey e = k then lookupEvents idx k ++ [e] else lookupEvents idx k := by
  induction idx with
  | nil => simp [insertEvent, lookupEvents]
  | cons hd tl ih =>
      obtain ⟨k0, es⟩ := hd
      by_cases h0 : k0 = eventKey e
      · by_cases hk : k0 = k
        · have he : eventKey e = k := h0 ▸ hk
          simp [insertEvent, lookupEvents, h0, hk, he]
        · have he : ¬(eventKey e = k) := fun h => hk (h0.trans h)
          simp [insertEvent, lookupEvents, h0, hk, he]
      · by_cases hk : k0 = k
        · have he : ¬(eventKey e = k) := fun h => h0 (hk.trans h.symm)
          have h0k : ¬(k = eventKey e) := fun h => h0 (hk.trans h)
          simp [insertEvent, lookupEvents, h0, hk, he, h0k]
        · simp [insertEvent, lookupEvents, h0, hk, ih]

theorem lookup_foldl_insertEvent (events : List MarketEvent)
    (idx : List (EventKey × List MarketEvent)) (k : EventKey) :
    lookupEvents (events.foldl insertEvent idx) k =
      lookupEvents idx k ++ events.filter (fun e => decide (eventKey e = k)) := by
  induction events generalizing idx with
  | nil => simp
  | cons e es ih =>
      rw [List.foldl_cons, ih, lookup_insertEvent, List.filter_cons]
      by_cases h : eventKey e = k
      · rw [if_pos h]
        simp [h]
      · rw [if_neg h]
        simp [h]

/-- Grouping by (market_id, event_date) and looking up recovers exactly the
events whose key equals the lookup key, in order. -/
theorem lookup_eventsByMarketDate (events : List MarketEvent) (k : EventKey) :
    lookupEvents (eventsByMarketDate events) k =
      events.filter (fun e => decide (eventKey e = k)) := by
  unfold eventsByMarketDate
  rw [lookup_foldl_insertEvent]
  simp [lookupEvents]

/-- A generated-shape multi-day event (a Conference with duration 3 starting on
day 0, demand lift 10, adr lift 8) used by the C5 counterexample. -/
def spanningEvent : MarketEvent :=
  { event_id := "EVT_00001", market_id := "M", event_date := 0,
    end_date := some 2, demand_lift_pct := 10, adr_lift_pct := 8 }

/-- C5 counterexample: on day 1 the event spanning days 0–2 is active in the
claim's sense, but the code looks events up only under their start date, so the
lift the daily computation adds is 0 while the claim says 10/100 (and 8/100 for
ADR). -/
theorem eventLift_counterexample :
    eventDemandLift [spanningEvent] "M" 1 = 0 ∧
    activeDemandLift [spanningEvent] "M" 1 = 1/10 ∧
    eventAdrLift [spanningEvent] "M" 1 = 0 ∧
    activeAdrLift [spanningEvent] "M" 1 = 2/25 ∧
    (0 : ℚ) ≠ 1/10 := by
  refine ⟨?_, ?_, ?_, ?_, by norm_num⟩ <;>
    norm_num [eventDemandLift, eventAdrLift, activeDemandLift, activeAdrLift,
      eventsByMarketDate, insertEvent, lookupEvents, eventKey, eventActive,
      spanningEvent, List.filter, List.foldl]

/-- C5 amended: the daily performance computation adds to occupancy the sum of
demand_lift_pct/100 over the events of the property's market whose event_date
equals the date exactly (events are applied only on their start date, not over
their whole duration), and adds the corresponding adr_lift_pct/100 sum to ADR. -/
theorem eventLift_startDate_only (events : List MarketEvent) (market : String) (d : ℤ) :
    eventDemandLift events market d =
      ((events.filter (fun e => decide (e.market_id = market ∧ e.event_date = d))).map
        (fun e => e.demand_lift_pct / 100)).sum ∧
    eventAdrLift events market d =
      ((events.filter (fun e => decide (e.market_id = market ∧ e.event_date = d))).map
        (fun e => e.adr_lift_pct / 100)).sum := by
  have hfilter : (events.filter (fun e => decide (eventKey e = (market, d)))) =
      (events.filter (fun e => decide (e.market_id = market ∧ e.event_date = d))) := by
    apply List.filter_congr
    intro e _
    simp [eventKey, Prod.ext_iff]
  constructor
  · unfold eventDemandLift
    rw [lookup_eventsByMarketDate, hfilter]
  · unfold eventAdrLift
    rw [lookup_eventsByMarketDate, hfilter]

/-! ### Lift percentages stored on a generated MarketEvent -/

inductive EventType
  | Conference | Sports | Concert | Holiday | Weather | Economic
  deriving DecidableEq, Repr

/-- Base adr_lift of each event type, from the event_types catalog. -/
def eventTypeBaseLift : EventType → ℚ
  | .Conference => 15
  | .Sports => 25
  | .Concert => 20
  | .Holiday => 30
  | .Weather => -10
  | .Economic => -20

/-- Stored demand_lift_pct of a generated event: base lift plus uniform(-5, 5)
noise, formatted to two decimal places. -/
def mkDemandLiftPct (t : EventType) (noise : ℚ) : ℚ :=
  round2 (eventTypeBaseLift t + noise)

/-- Stored adr_lift_pct of a generated event: 0.8 times the raw demand lift,
formatted to two decimal places. -/
def mkAdrLiftPct (t : EventType) (noise : ℚ) : ℚ :=
  round2 ((eventTypeBaseLift t + noise) * (8/10))

theorem round2_intCast (n : ℤ) : round2 ((n : ℚ)) = n := by
  unfold round2
  rw [show (100 : ℚ) * n = ((100 * n : ℤ) : ℚ) by push_cast; ring, round_intCast]
  push_cast
  ring

/-- C10: for every generated MarketEvent, the stored adr_lift_pct is the raw
demand lift times 0.8 then 2-decimal formatted; the stored demand and ADR lifts
carry the same (strict) sign, and the ADR lift is no larger in magnitude. -/
theorem adrLift_demandLift_relation (t : EventType) (noise : ℚ)
    (h1 : -5 ≤ noise) (h2 : noise ≤ 5) :
    mkAdrLiftPct t noise = round2 ((eventTypeBaseLift t + noise) * (8/10)) ∧
    (0 < mkDemandLiftPct t noise ↔ 0 < mkAdrLiftPct t noise) ∧
    (mkDemandLiftPct t noise < 0 ↔ mkAdrLiftPct t noise < 0) ∧
    |mkAdrLiftPct t noise| ≤ |mkDemandLiftPct t noise| := by
  refine ⟨rfl, ?_⟩
  unfold mkDemandLiftPct mkAdrLiftPct
  set raw : ℚ := eventTypeBaseLift t + noise with hraw
  have hcases : 5 ≤ raw ∨ raw ≤ -5 := by
    cases t <;> simp only [eventTypeBaseLift, hraw] <;> [left; left; left; left; right; right] <;>
      linarith
  rcases hcases with hpos | hneg
  · have h08 : (8:ℚ)/10 * 5 ≤ raw * (8/10) := by nlinarith
    have hd : (4 : ℚ) ≤ round2 (raw * (8/10)) := by
      calc (4 : ℚ) = round2 ((4 : ℤ) : ℚ) := by rw [round2_intCast]; norm_num
        _ ≤ round2 (raw * (8/10)) := round2_mono (by push_cast; linarith)
    have hD : (5 : ℚ) ≤ round2 raw := by
      calc (5 : ℚ) = round2 ((5 : ℤ) : ℚ) := by rw [round2_intCast]; norm_num
        _ ≤ round2 raw := round2_mono (by push_cast; linarith)
    have hle : round2 (raw * (8/10)) ≤ round2 raw := round2_mono (by nlinarith)
    refine ⟨⟨fun _ => by linarith, fun _ => by linarith⟩,
      ⟨fun h => absurd h (by linarith), fun h => absurd h (by linarith)⟩, ?_⟩
    rw [abs_of_pos (by linarith), abs_of_pos (by linarith)]
    exact hle
  · have hd : round2 (raw * (8/10)) ≤ -4 := by
      calc round2 (raw * (8/10)) ≤ round2 ((-4 : ℤ) : ℚ) := round2_mono (by push_cast; nlinarith)
        _ = -4 := by rw [round2_intCast]; norm_num
    have hD : round2 raw ≤ -5 := by
      calc round2 raw ≤ round2 ((-5 : ℤ) : ℚ) := round2_mono (by push_cast; linarith)
        _ = -5 := by rw [round2_intCast]; norm_num
    have hle : round2 raw ≤ round2 (raw * (8/10)) := round2_mono (by nlinarith)
    refine ⟨⟨fun h => absurd h (by linarith), fun h => absurd h (by linarith)⟩,
      ⟨fun _ => by linarith, fun _ => by linarith⟩, ?_⟩
    rw [abs_of_neg (by linarith), abs_of_neg (by linarith)]
    linarith

/-- Witness for C10: a Conference event with zero noise has demand lift 15 and
ADR lift 12, same sign and smaller magnitude. -/
theorem adrLift_demandLift_relation_witness :
    mkAdrLiftPct EventType.Conference 0 =
      round2 ((eventTypeBaseLift EventType.Conference + 0) * (8/10)) ∧
    (0 < mkDemandLiftPct EventType.Conference 0 ↔ 0 < mkAdrLiftPct EventType.Conference 0) ∧
    (mkDemandLiftPct EventType.Conference 0 < 0 ↔ mkAdrLiftPct EventType.Conference 0 < 0) ∧
    |mkAdrLiftPct EventType.Conference 0| ≤ |mkDemandLiftPct EventType.Conference 0| :=
  adrLift_demandLift_relation EventType.Conference 0 (by norm_num) (by norm_num)

/-! ### DailyPerformance rows and the RevPAR repair pass

A DailyPerformance row keeps the columns that the generator writes
(channel/segment JSON mixes and operational rates are independent draws not
referenced by any verified claim and are omitted). -/

structure DailyPerf where
  property_id : String
  business_date : ℤ
  rooms_available : ℕ
  rooms_sold : ℤ
  occupancy_rate : ℚ
  adr : ℚ
  revpar : ℚ
  revenue_rooms : ℚ
  revenue_fb : ℚ
  revenue_other : ℚ
  revenue_total : ℚ
  deriving Repr

/-- Attributes of a property read by generate_daily_performance. -/
structure PropAttrs where
  property_id : String
  brand : Brand
  region : Region
  market_tier : MarketTier
  property_type : PropertyType
  room_count : ℕ
  market_id : String
  deriving Repr

/-- Calendar attributes of a business date: month and day (for seasonality),
weekday with 0 = Monday (for the day-of-week multiplier), and an absolute day
index used as the event-lookup and storage date. -/
structure DateInfo where
  month : ℕ
  day : ℕ
  weekday : ℕ
  dayIdx : ℤ
  deriving Repr

/-- Per-day random draws of generate_daily_performance that feed the stored
fields modelled here. -/
structure DailyNoise where
  dailyVariation : ℚ
  adrVariation : ℚ
  fbFactor : ℚ
  otherFactor : ℚ
  deriving Repr

/-- Clamp of the persistent property performance factor to [0.7, 1.4]
(the conditional logic replacing min/max in the source). -/
def clampPerfFactor (x : ℚ) : ℚ :=
  if x < 7/10 then 7/10 else if x > 14/10 then 14/10 else x

/-- Base ADR of a property: brand base rate times the regional multiplier,
adjusted multiplicatively for market tier (Primary ×1.15, Tertiary ×0.90) and
property type (Airport ×1.10, Resort ×1.25, Highway ×0.95), then scaled by the
clamped property performance factor. -/
def propBaseADR (p : PropAttrs) (perfRaw : ℚ) : ℚ :=
  let a0 := brandAdrBase p.brand * regionAdrMult p.region
  let a1 := if p.market_tier = .Primary then a0 * (23/20)
            else if p.market_tier = .Tertiary then a0 * (9/10) else a0
  let a2 := if p.property_type = .Airport then a1 * (11/10)
            else if p.property_type = .Resort then a1 * (5/4)
            else if p.property_type = .Highway then a1 * (19/20) else a1
  a2 * clampPerfFactor perfRaw

/-- Base occupancy of a property: industry average 0.68 adjusted additively for
market tier (Primary +0.05, Tertiary −0.05) and property type (Airport +0.08,
Highway +0.02), then scaled by the performance factor capped at 1.2. -/
def propBaseOcc (p : PropAttrs) (perfRaw : ℚ) : ℚ :=
  let o0 : ℚ := 68/100
  let o1 := if p.market_tier = .Primary then o0 + 5/100
            else if p.market_tier = .Tertiary then o0 - 5/100 else o0
  let o2 := if p.property_type = .Airport then o1 + 8/100
            else if p.property_type = .Highway then o1 + 2/100 else o1
  let pf := clampPerfFactor perfRaw
  o2 * (if pf < 12/10 then pf else 12/10)

/-- Clamp of the daily occupancy to the bounds [0.15, 0.95]
(the conditional logic in the source). -/
def clampOcc (x : ℚ) : ℚ :=
  if x < 15/100 then 15/100 else if x > 95/100 then 95/100 else x

/-- Daily occupancy before clamping: base occupancy times seasonal multiplier,
day-of-week multiplier, event demand lift factor, and daily variation. -/
def rawOccupancy (p : PropAttrs) (perfRaw : ℚ) (di : DateInfo)
    (events : List MarketEvent) (nz : DailyNoise) : ℚ :=
  propBaseOcc p perfRaw * seasonalMultiplier di.month di.day p.region *
    dowMultiplier di.weekday p.property_type *
    (1 + eventDemandLift events p.market_id di.dayIdx) * nz.dailyVariation

/-- Daily occupancy after the [0.15, 0.95] clamp. -/
def clampedOccupancy (p : PropAttrs) (perfRaw : ℚ) (di : DateInfo)
    (events : List MarketEvent) (nz : DailyNoise) : ℚ :=
  clampOcc (rawOccupancy p perfRaw di events nz)

/-- rooms_sold = int(daily_occupancy * room_count). -/
def roomsSoldOf (p : PropAttrs) (perfRaw : ℚ) (di : DateInfo)
    (events : List MarketEvent) (nz : DailyNoise) : ℤ :=
  truncQ (clampedOccupancy p perfRaw di events nz * p.room_count)

/-- actual_occupancy = rooms_sold / room_count (0 when room_count is 0). -/
def actualOccupancy (p : PropAttrs) (perfRaw : ℚ) (di : DateInfo)
    (events : List MarketEvent) (nz : DailyNoise) : ℚ :=
  if 0 < p.room_count
  then (roomsSoldOf p perfRaw di events nz : ℚ) / (p.room_count : ℚ)
  else 0

/-- One generated DailyPerformance row: the occupancy pipeline above composed
with demand-based re-pricing (ADR ×1.1 above 0.85 actual occupancy, ×0.9 below
0.50), ADR variation, and the derived revenue fields, stored with the f-string
formatting of the source. -/
def dailyRow (p : PropAttrs) (perfRaw : ℚ) (di : DateInfo)
    (events : List MarketEvent) (nz : DailyNoise) : DailyPerf :=
  let rs := roomsSoldOf p perfRaw di events nz
  let aOcc := actualOccupancy p perfRaw di events nz
  let adr0 := propBaseADR p perfRaw * seasonalMultiplier di.month di.day p.region *
    (1 + eventAdrLift events p.market_id di.dayIdx)
  let adr1 := if aOcc > 85/100 then adr0 * (11/10)
              else if aOcc < 50/100 then adr0 * (9/10) else adr0
  let adr2 := adr1 * nz.adrVariation
  let revRooms := (rs : ℚ) * adr2
  let rev := adr2 * aOcc
  let fb := if (p.property_type = .Resort ∨ p.property_type = .Urban) ∧
               (p.brand = .Wyndham ∨ p.brand = .Ramada)
            then revRooms * nz.fbFactor else 0
  let other := if p.property_type = .Airport then revRooms * nz.otherFactor else 0
  { property_id := p.property_id
    business_date := di.dayIdx
    rooms_available := p.room_count
    rooms_sold := rs
    occupancy_rate := round4 aOcc
    adr := round2 adr2
    revpar := round2 rev
    revenue_rooms := round2 revRooms
    revenue_fb := if fb > 0 then round2 fb else 0
    revenue_other := if other > 0 then round2 other else 0
    revenue_total := round2 (revRooms + fb + other) }

theorem clampOcc_bounds (x : ℚ) : 15/100 ≤ clampOcc x ∧ clampOcc x ≤ 95/100 := by
  unfold clampOcc
  split_ifs <;> constructor <;> linarith

/-- Concrete property used by the C3 counterexample: a 61-room Secondary
Suburban Days Inn in the Midwest. -/
def ceProp : PropAttrs :=
  { property_id := "WYN_DAYS_MW_001", brand := .DaysInn, region := .Midwest,
    market_tier := .Secondary, property_type := .Suburban, room_count := 61,
    market_id := "CHICAGO_Secondary" }

/-- Concrete shoulder-season Monday used by the C3 counterexample. -/
def ceDate : DateInfo := { month := 3, day := 10, weekday := 0, dayIdx := 0 }

/-- Concrete daily draws used by the C3 counterexample: a very low daily
variation draw drives the raw occupancy below the clamp floor. -/
def ceNoise : DailyNoise :=
  { dailyVariation := 0, adrVariation := 1, fbFactor := 0, otherFactor := 0 }

/-- C3 counterexample: for the 61-room property above with the clamp floor
active, rooms_sold = int(0.15 × 61) = 9, and the recomputed occupancy
9/61 ≈ 0.1475 falls strictly below the claimed lower bound 0.15. -/
theorem occupancy_lower_bound_counterexample :
    (dailyRow ceProp 1 ceDate [] ceNoise).rooms_sold = 9 ∧
    (dailyRow ceProp 1 ceDate [] ceNoise).rooms_available = 61 ∧
    ¬(15/100 ≤ ((dailyRow ceProp 1 ceDate [] ceNoise).rooms_sold : ℚ) /
        ((dailyRow ceProp 1 ceDate [] ceNoise).rooms_available : ℚ)) := by
  have hrs : (dailyRow ceProp 1 ceDate [] ceNoise).rooms_sold = 9 := by
    show roomsSoldOf ceProp 1 ceDate [] ceNoise = 9
    unfold roomsSoldOf clampedOccupancy rawOccupancy propBaseOcc clampPerfFactor
      clampOcc truncQ seasonalMultiplier seasonalBase regionSeasonality dowMultiplier
      eventDemandLift eventsByMarketDate lookupEvents ceProp ceDate ceNoise
    norm_num [Int.floor_eq_iff]
  have hra : (dailyRow ceProp 1 ceDate [] ceNoise).rooms_available = 61 := rfl
  refine ⟨hrs, hra, ?_⟩
  rw [hrs, hra]
  norm_num

/-- C3 amended: for every generated DailyPerformance row the recomputed
occupancy rooms_sold / room_count is at most 0.95, but its lower bound is only
0.15 − 1/room_count (strictly), not 0.15: the int() truncation of
occupancy × room_count can land up to one room below the clamp floor. -/
theorem occupancy_rate_bounds (p : PropAttrs) (perfRaw : ℚ) (di : DateInfo)
    (events : List MarketEvent) (nz : DailyNoise) (h : 1 ≤ p.room_count) :
    ((dailyRow p perfRaw di events nz).rooms_sold : ℚ) /
        ((dailyRow p perfRaw di events nz).rooms_available : ℚ) ≤ 95/100 ∧
    15/100 - 1/((dailyRow p perfRaw di events nz).rooms_available : ℚ) <
      ((dailyRow p perfRaw di events nz).rooms_sold : ℚ) /
        ((dailyRow p perfRaw di events nz).rooms_available : ℚ) := by
  have hrs : (dailyRow p perfRaw di events nz).rooms_sold =
      roomsSoldOf p perfRaw di events nz := rfl
  have hra : (dailyRow p perfRaw di events nz).rooms_available = p.room_count := rfl
  rw [hrs, hra]
  set c := clampedOccupancy p perfRaw di events nz with hc
  have hc1 : 15/100 ≤ c := (clampOcc_bounds (rawOccupancy p perfRaw di events nz)).1
  have hc2 : c ≤ 95/100 := (clampOcc_bounds (rawOccupancy p perfRaw di events nz)).2
  have hrcQ : (0 : ℚ) < (p.room_count : ℚ) := by
    exact_mod_cast Nat.lt_of_lt_of_le Nat.zero_lt_one h
  have hprod : (0 : ℚ) ≤ c * p.room_count := by positivity
  have hfloor : roomsSoldOf p perfRaw di events nz = ⌊c * (p.room_count : ℚ)⌋ := by
    unfold roomsSoldOf
    rw [← hc, truncQ_eq_floor_of_nonneg hprod]
  rw [hfloor]
  constructor
  · rw [div_le_iff₀ hrcQ]
    calc ((⌊c * (p.room_count : ℚ)⌋ : ℚ)) ≤ c * p.room_count := Int.floor_le _
      _ ≤ 95/100 * p.room_count := by nlinarith
  · rw [lt_div_iff₀ hrcQ]
    have hlow := Int.sub_one_lt_floor (c * (p.room_count : ℚ))
    have : (15/100 - 1/(p.room_count : ℚ)) * p.room_count = 15/100 * p.room_count - 1 := by
      field_simp
      ring
    rw [this]
    calc (15:ℚ)/100 * p.room_count - 1 ≤ c * p.room_count - 1 := by nlinarith
      _ < ⌊c * (p.room_count : ℚ)⌋ := hlow

/-- Witness for the amended C3 claim at the concrete 61-room property. -/
theorem occupancy_rate_bounds_witness :
    ((dailyRow ceProp 1 ceDate [] ceNoise).rooms_sold : ℚ) /
        ((dailyRow ceProp 1 ceDate [] ceNoise).rooms_available : ℚ) ≤ 95/100 ∧
    15/100 - 1/((dailyRow ceProp 1 ceDate [] ceNoise).rooms_available : ℚ) <
      ((dailyRow ceProp 1 ceDate [] ceNoise).rooms_sold : ℚ) /
        ((dailyRow ceProp 1 ceDate [] ceNoise).rooms_available : ℚ) :=
  occupancy_rate_bounds ceProp 1 ceDate [] ceNoise (by norm_num [ceProp])

/-- Predicate of the RevPAR Fix UPDATE's WHERE clause:
ABS(revpar - adr * occupancy_rate) > 0.01. -/
def revparBroken (r : DailyPerf) : Prop :=
  1 / 100 < |r.revpar - r.adr * r.occupancy_rate|

instance (r : DailyPerf) : Decidable (revparBroken r) := by
  unfold revparBroken; infer_instance

/-- Action of the RevPAR Fix UPDATE on one row:
SET revpar = ROUND(adr * occupancy_rate, 2) where the WHERE clause holds. -/
def revparFixRow (r : DailyPerf) : DailyPerf :=
  if revparBroken r then { r with revpar := round2 (r.adr * r.occupancy_rate) } else r

/-- The RevPAR repair pass over the whole table. -/
def revparFix (t : List DailyPerf) : List DailyPerf := t.map revparFixRow

/-- Number of rows the RevPAR Fix UPDATE touches (rows matching its WHERE clause). -/
def revparUpdatedCount (t : List DailyPerf) : ℕ :=
  t.countP (fun r => decide (revparBroken r))

/-- A sample consistent row used by witnesses. -/
def sampleRow : DailyPerf :=
  { property_id := "WYN_DAYS_NE_001", business_date := 0, rooms_available := 100,
    rooms_sold := 50, occupancy_rate := 1/2, adr := 100, revpar := 50,
    revenue_rooms := 5000, revenue_fb := 0, revenue_other := 0, revenue_total := 5000 }

/-- A sample inconsistent row used by witnesses. -/
def sampleBrokenRow : DailyPerf :=
  { sampleRow with revpar := 60 }

/-- C1: after the RevPAR repair pass has run, every row of the DailyPerformance
table satisfies |revpar − adr × occupancy_rate| ≤ 0.01 over the stored values. -/
theorem revparFix_establishes_invariant (t : List DailyPerf) (r : DailyPerf)
    (hr : r ∈ revparFix t) : |r.revpar - r.adr * r.occupancy_rate| ≤ 1 / 100 := by
  rcases List.mem_map.mp hr with ⟨r0, _, rfl⟩
  unfold revparFixRow
  by_cases hb : revparBroken r0
  · rw [if_pos hb]
    have := round2_dist (r0.adr * r0.occupancy_rate)
    simpa using le_trans this (by norm_num)
  · rw [if_neg hb]
    unfold revparBroken at hb
    linarith [not_lt.mp hb]

/-- Witness for C1 on a concrete one-row table. -/
theorem revparFix_establishes_invariant_witness :
    |(revparFixRow sampleBrokenRow).revpar -
      (revparFixRow sampleBrokenRow).adr * (revparFixRow sampleBrokenRow).occupancy_rate|
        ≤ 1 / 100 :=
  revparFix_establishes_invariant [sampleBrokenRow] _ (List.mem_singleton.mpr rfl)

/-- C2: the RevPAR repair pass is a no-op on a table whose rows already satisfy
the invariant |revpar − adr × occupancy_rate| ≤ 0.01: it updates zero rows and
leaves the table unchanged. -/
theorem revparFix_idempotent_on_consistent (t : List DailyPerf)
    (h : ∀ r ∈ t, |r.revpar - r.adr * r.occupancy_rate| ≤ 1 / 100) :
    revparFix t = t ∧ revparUpdatedCount t = 0 := by
  constructor
  · unfold revparFix
    have : ∀ r ∈ t, revparFixRow r = id r := by
      intro r hr
      unfold revparFixRow
      rw [if_neg]
      · rfl
      · unfold revparBroken
        exact not_lt.mpr (h r hr)
    rw [List.map_congr_left this, List.map_id]
  · unfold revparUpdatedCount
    rw [List.countP_eq_zero]
    intro r hr
    simp only [decide_eq_true_eq]
    unfold revparBroken
    exact not_lt.mpr (h r hr)

/-- Witness for C2 on a concrete consistent one-row table. -/
theorem revparFix_idempotent_on_consistent_witness :
    revparFix [sampleRow] = [sampleRow] ∧ revparUpdatedCount [sampleRow] = 0 :=
  revparFix_idempotent_on_consistent [sampleRow] (by
    intro r hr
    rw [List.mem_singleton] at hr
    subst hr
    norm_num [sampleRow])

/-! ### Competitive intelligence -/

/-- Joined daily-performance inputs of one market-date group in
generate_competitive_intelligence. -/
structure MarketPerfRow where
  property_id : String
  occupancy_rate : ℚ
  adr : ℚ
  revpar : ℚ
  room_count : ℕ
  deriving DecidableEq, Repr

/-- Random market factors drawn for one market-date group. -/
structure MarketFactors where
  revparFactor : ℚ
  adrFactor : ℚ
  occFactor : ℚ
  deriving DecidableEq, Repr

/-- Total weighted room count of a market-date group. -/
def totalRooms (rows : List MarketPerfRow) : ℚ :=
  (rows.map (fun r => (r.room_count : ℚ))).sum

/-- Room-count-weighted average RevPAR of the subject properties. -/
def wyndhamRevpar (rows : List MarketPerfRow) : ℚ :=
  (rows.map (fun r => r.revpar * (r.room_count : ℚ))).sum / totalRooms rows

/-- Room-count-weighted average ADR of the subject properties. -/
def wyndhamAdr (rows : List MarketPerfRow) : ℚ :=
  (rows.map (fun r => r.adr * (r.room_count : ℚ))).sum / totalRooms rows

/-- Room-count-weighted average occupancy of the subject properties. -/
def wyndhamOcc (rows : List MarketPerfRow) : ℚ :=
  (rows.map (fun r => r.occupancy_rate * (r.room_count : ℚ))).sum / totalRooms rows

/-- Synthesized market RevPAR: the subject aggregate divided by the random
market factor drawn from uniform(0.85, 1.15). -/
def marketRevparOf (rows : List MarketPerfRow) (f : MarketFactors) : ℚ :=
  wyndhamRevpar rows / f.revparFactor

/-- Synthesized market ADR (factor drawn from uniform(0.90, 1.10)). -/
def marketAdrOf (rows : List MarketPerfRow) (f : MarketFactors) : ℚ :=
  wyndhamAdr rows / f.adrFactor

/-- Synthesized market occupancy (factor drawn from uniform(0.95, 1.05)). -/
def marketOccOf (rows : List MarketPerfRow) (f : MarketFactors) : ℚ :=
  wyndhamOcc rows / f.occFactor

theorem headI_mem_of_ne_nil {α : Type} [Inhabited α] :
    ∀ {l : List α}, l ≠ [] → l.headI ∈ l
  | [], h => absurd rfl h
  | a :: t, _ => List.mem_cons_self a t

structure CompRow where
  market_id : String
  business_date : ℤ
  property_id : String
  market_occupancy : ℚ
  market_adr : ℚ
  market_revpar : ℚ
  penetration_index : ℚ
  adr_index : ℚ
  revpar_index : ℚ
  market_room_nights : ℤ
  fair_share_rooms : ℤ
  deriving DecidableEq, Repr, Inhabited

/-- CompetitiveIntelligence records of one (market, date) group: one record per
subject property, all sharing the market-level benchmark values; the group is
skipped (empty output) when its total room count is zero. -/
def compRecords (market : String) (d : ℤ) (rows : List MarketPerfRow)
    (f : MarketFactors) : List CompRow :=
  if totalRooms rows = 0 then [] else
  let wyR := wyndhamRevpar rows
  let wyA := wyndhamAdr rows
  let wyO := wyndhamOcc rows
  let mR := wyR / f.revparFactor
  let mA := wyA / f.adrFactor
  let mO := wyO / f.occFactor
  let rIdx := if mR > 0 then wyR / mR * 100 else 100
  let aIdx := if mA > 0 then wyA / mA * 100 else 100
  let mrn := truncQ (totalRooms rows * mO * 4)
  let fsr := truncQ ((mrn : ℚ) * (25/100))
  let pIdx := if fsr > 0 then totalRooms rows * wyO / (fsr : ℚ) * 100 else 100
  rows.map (fun row =>
    { market_id := market, business_date := d, property_id := row.property_id,
      market_occupancy := round4 mO, market_adr := round2 mA,
      market_revpar := round2 mR, penetration_index := round2 pIdx,
      adr_index := round2 aIdx, revpar_index := round2 rIdx,
      market_room_nights := mrn, fair_share_rooms := fsr })

/-- C6: every CompetitiveIntelligence row stores
revpar_index = round(subject_revpar / market_revpar × 100, 2), with
subject_revpar the room-count-weighted average RevPAR of the market's subject
properties and market_revpar the synthesized market RevPAR, whenever the
market has rooms and the synthesized market RevPAR is positive. -/
theorem compRecords_revpar_index (market : String) (d : ℤ) (rows : List MarketPerfRow)
    (f : MarketFactors) (r : CompRow) (hTR : totalRooms rows ≠ 0)
    (hpos : 0 < marketRevparOf rows f) (hr : r ∈ compRecords market d rows f) :
    r.revpar_index = round2 (wyndhamRevpar rows / marketRevparOf rows f * 100) := by
  unfold compRecords at hr
  rw [if_neg hTR] at hr
  simp only [List.mem_map] at hr
  obtain ⟨row, _, rfl⟩ := hr
  have : marketRevparOf rows f = wyndhamRevpar rows / f.revparFactor := rfl
  rw [this] at hpos
  simp only [if_pos hpos]
  rfl

/-- Concrete subject row used by the C6 witness. -/
def cirow : MarketPerfRow :=
  { property_id := "WYN_DAYS_MW_001", occupancy_rate := 1/2, adr := 100,
    revpar := 50, room_count := 100 }

/-- Concrete market factors used by the C6 witness. -/
def cif : MarketFactors := { revparFactor := 1, adrFactor := 1, occFactor := 1 }

/-- Witness for C6 at a one-property market with unit factors. -/
theorem compRecords_revpar_index_witness :
    ((compRecords "M" 0 [cirow] cif).headI).revpar_index =
      round2 (wyndhamRevpar [cirow] / marketRevparOf [cirow] cif * 100) :=
  compRecords_revpar_index "M" 0 [cirow] cif _
    (by norm_num [totalRooms, cirow])
    (by norm_num [marketRevparOf, wyndhamRevpar, totalRooms, cirow, cif])
    (headI_mem_of_ne_nil (by
      simp [compRecords, totalRooms, cirow]))

/-! ### Guest transaction counts per property-night -/

/-- Number of transactions generated for one property-night: rooms_sold over
the average party size 1.8, put through the conditional chain of the source
(below 2 gives 2; above the cap gives the cap, which is 8 only when
rooms_sold > 20 and otherwise 5; in between, int() truncation applies). -/
def numTransactions (roomsSold : ℤ) : ℤ :=
  let est : ℚ := (roomsSold : ℚ) / (18/10)
  let maxT : ℤ := if roomsSold > 20 then 8 else 5
  if est < 2 then 2
  else if est > (maxT : ℚ) then maxT
  else truncQ est

/-- Transaction count as the C7 claim words it:
clamp(round(rooms_sold / avg_party_size), 2, 8). -/
def numTransactionsSpec (roomsSold : ℤ) : ℤ :=
  max 2 (min 8 (round ((roomsSold : ℚ) / (18/10))))

/-- C7 counterexample: at rooms_sold = 18 (within the generator's sampled
population rooms_sold > 5) the code caps the count at 5, while the claimed
clamp(round(18/1.8), 2, 8) = 8. -/
theorem numTransactions_counterexample :
    numTransactions 18 = 5 ∧ numTransactionsSpec 18 = 8 ∧ (5 : ℤ) ≠ 8 := by
  refine ⟨?_, ?_, by norm_num⟩
  · have h10 : ((18 : ℤ) : ℚ) / (18/10) = 10 := by norm_num
    simp only [numTransactions, h10]
    norm_num
  · have h10 : ((18 : ℤ) : ℚ) / (18/10) = 10 := by norm_num
    simp only [numTransactionsSpec, h10]
    rw [show ((10 : ℚ)) = ((10 : ℤ) : ℚ) by norm_num, round_intCast]
    norm_num

/-- C7 amended: for every processed property-night (rooms_sold above the
sampling threshold 5) the transaction count equals
clamp(floor(rooms_sold / 1.8), 2, m) where the cap m is 8 when rooms_sold > 20
and 5 otherwise — floor rather than round, cap 5 rather than 8 for nights of
at most 20 sold rooms — and the count always lies between 2 and 8 inclusive. -/
theorem numTransactions_characterization (roomsSold : ℤ) (h : 5 < roomsSold) :
    numTransactions roomsSold =
      max 2 (min (if roomsSold > 20 then 8 else 5) ⌊(roomsSold : ℚ) / (18/10)⌋) ∧
    2 ≤ numTransactions roomsSold ∧ numTransactions roomsSold ≤ 8 := by
  have hrs0 : (0 : ℚ) ≤ (roomsSold : ℚ) := by exact_mod_cast (by omega : (0:ℤ) ≤ roomsSold)
  have hest0 : (0 : ℚ) ≤ (roomsSold : ℚ) / (18/10) := by positivity
  set est : ℚ := (roomsSold : ℚ) / (18/10) with hest
  set maxT : ℤ := if roomsSold > 20 then 8 else 5 with hmax
  have hm25 : 2 ≤ maxT ∧ maxT ≤ 8 := by
    rw [hmax]; split_ifs <;> omega
  have hchar : numTransactions roomsSold =
      if est < 2 then 2 else if est > (maxT : ℚ) then maxT else truncQ est := rfl
  have key : (if est < 2 then 2 else if est > (maxT : ℚ) then maxT else truncQ est) =
      max 2 (min maxT ⌊est⌋) := by
    split_ifs with h1 h2
    · have hf : ⌊est⌋ < 2 := by
        rw [Int.floor_lt]
        exact_mod_cast h1
      exact (max_eq_left (le_trans (min_le_right _ _) (by omega))).symm
    · have hf : maxT ≤ ⌊est⌋ := Int.le_floor.mpr (le_of_lt h2)
      rw [min_eq_left hf, max_eq_right hm25.1]
    · have hf2 : (2 : ℤ) ≤ ⌊est⌋ := Int.le_floor.mpr (by exact_mod_cast not_lt.mp h1)
      have hfm : ⌊est⌋ ≤ maxT := by
        have := Int.floor_le_floor (not_lt.mp h2)
        rwa [Int.floor_intCast] at this
      rw [truncQ_eq_floor_of_nonneg hest0, min_eq_right hfm, max_eq_right hf2]
  rw [hchar, key]
  refine ⟨rfl, le_max_left _ _, ?_⟩
  exact max_le (by norm_num) (le_trans (min_le_left _ _) hm25.2)

/-- Witness for the amended C7 claim at rooms_sold = 18: the count is
max 2 (min 5 ⌊10⌋) = 5, within [2, 8]. -/
theorem numTransactions_characterization_witness :
    numTransactions 18 =
      max 2 (min (if (18:ℤ) > 20 then 8 else 5) ⌊((18:ℤ) : ℚ) / (18/10)⌋) ∧
    2 ≤ numTransactions 18 ∧ numTransactions 18 ≤ 8 :=
  numTransactions_characterization 18 (by norm_num)

/-! ### Guest transaction records and the curated load -/

/-- Columns of a generated guest transaction that the curated load reads
(room type, rate code, channel, segment and guest type are independent
categorical draws not referenced by any verified claim). -/
structure GuestTransaction where
  transaction_id : String
  property_id : String
  guest_id : String
  business_date : ℤ
  departure_date : ℤ
  length_of_stay : ℕ
  room_revenue : ℚ
  total_revenue : ℚ
  booking_date : ℤ
  advance_booking_days : ℕ
  cancellation_date : Option ℤ
  no_show : Bool
  deriving DecidableEq, Repr

/-- Random draws for one transaction. -/
structure TxnDraw where
  lengthOfStay : ℕ
  advanceDays : ℕ
  baseRateMult : ℚ
  rateCodeMult : ℚ
  ancillaryFactor : ℚ
  deriving Repr

/-- Sampled property-night input row of the transaction generator. -/
structure SampledPerf where
  property_id : String
  business_date : ℤ
  rooms_sold : ℤ
  adr : ℚ
  brand : Brand
  property_type : PropertyType
  deriving Repr

/-- One generated transaction: departure = arrival + length of stay, booking =
arrival − advance days, revenue from the day's ADR times the draw multipliers,
and — as in the source — cancellation_date set to the booking date (a schema
placeholder) with no_show set to False. -/
def mkTransaction (counter : ℕ) (sp : SampledPerf) (dr : TxnDraw) : GuestTransaction :=
  let bookingDate := sp.business_date - (dr.advanceDays : ℤ)
  let roomRev := sp.adr * dr.baseRateMult * dr.rateCodeMult * (dr.lengthOfStay : ℚ)
  { transaction_id := "TXN_" ++ toString counter
    property_id := sp.property_id
    guest_id := "GST_" ++ toString counter
    business_date := sp.business_date
    departure_date := sp.business_date + (dr.lengthOfStay : ℤ)
    length_of_stay := dr.lengthOfStay
    room_revenue := round2 roomRev
    total_revenue := round2 (roomRev * dr.ancillaryFactor)
    booking_date := bookingDate
    advance_booking_days := dr.advanceDays
    cancellation_date := some bookingDate
    no_show := false }

/-- Transactions of one property-night: numTransactions many, consuming
globally indexed draws. -/
def txnsForNight (sp : SampledPerf) (draws : ℕ → TxnDraw) (start : ℕ) :
    List GuestTransaction :=
  (List.range (numTransactions sp.rooms_sold).toNat).map
    (fun i => mkTransaction (start + i) sp (draws (start + i)))

/-- The transaction generator over all sampled property-nights, threading the
global transaction counter. -/
def genTxnsAux (draws : ℕ → TxnDraw) : List SampledPerf → ℕ → List GuestTransaction
  | [], _ => []
  | sp :: rest, c =>
      txnsForNight sp draws c ++
        genTxnsAux draws rest (c + (numTransactions sp.rooms_sold).toNat)

/-- All generated guest transactions (counter starts at 1). -/
def genTransactions (sample : List SampledPerf) (draws : ℕ → TxnDraw) :
    List GuestTransaction :=
  genTxnsAux draws sample 1

/-- Row filter of the curated-load INSERT for guest transactions:
WHERE cancellation_date IS NULL AND no_show = FALSE. -/
def curatedTransactions (ts : List GuestTransaction) : List GuestTransaction :=
  ts.filter (fun t => decide (t.cancellation_date = none) && decide (t.no_show = false))

/-- Boolean form of the C9 per-row property: cancellation_date is non-null and
equals the booking date, and no_show is False. -/
def placeholderCancellation (t : GuestTransaction) : Bool :=
  decide (t.cancellation_date = some t.booking_date) && decide (t.no_show = false)

theorem txnsForNight_placeholder (sp : SampledPerf) (draws : ℕ → TxnDraw) (c : ℕ) :
    (txnsForNight sp draws c).all placeholderCancellation = true := by
  rw [List.all_eq_true]
  intro t ht
  rcases List.mem_map.mp ht with ⟨i, _, rfl⟩
  simp [placeholderCancellation, mkTransaction]

theorem genTxnsAux_placeholder (draws : ℕ → TxnDraw) (sample : List SampledPerf) (c : ℕ) :
    (genTxnsAux draws sample c).all placeholderCancellation = true := by
  induction sample generalizing c with
  | nil => rfl
  | cons sp rest ih =>
      rw [genTxnsAux, List.all_append, txnsForNight_placeholder, ih, Bool.and_self]

/-- C9: every generated guest transaction carries cancellation_date equal to
its booking_date (hence non-null) and no_show = False, and therefore the
curated-load INSERT, which keeps only rows with cancellation_date IS NULL and
no_show = FALSE, selects none of them: the curated guest_transactions table is
loaded empty. -/
theorem curated_transactions_empty (sample : List SampledPerf) (draws : ℕ → TxnDraw) :
    (genTransactions sample draws).all placeholderCancellation = true ∧
    curatedTransactions (genTransactions sample draws) = [] := by
  refine ⟨genTxnsAux_placeholder draws sample 1, ?_⟩
  rw [curatedTransactions, List.filter_eq_nil_iff]
  intro t ht
  have hall := List.all_eq_true.mp (genTxnsAux_placeholder draws sample 1) t ht
  simp only [placeholderCancellation, Bool.and_eq_true, decide_eq_true_eq] at hall
  simp only [Bool.and_eq_true, decide_eq_true_eq, not_and]
  intro hnone
  rw [hall.1] at hnone
  exact absurd hnone (Option.some_ne_none _)

/-! ### Property master generation: ids and regional counts

The decimal rendering below embeds the Python format f-string with the 03d
specifier used in generate_property_id (decimal digits, zero-padded to width
at least three). -/

/-- Decimal digit character of a digit value (values 10 and above never arise). -/
def digitChar (d : ℕ) : Char :=
  if d = 1 then '1' else if d = 2 then '2' else if d = 3 then '3'
  else if d = 4 then '4' else if d = 5 then '5' else if d = 6 then '6'
  else if d = 7 then '7' else if d = 8 then '8' else if d = 9 then '9'
  else '0'

/-- Numeric value of a digit character. -/
def charVal (c : Char) : ℕ := c.toNat - 48

theorem charVal_digitChar {d : ℕ} (h : d < 10) : charVal (digitChar d) = d := by
  interval_cases d <;> decide

theorem digitChar_isDigit (d : ℕ) : (digitChar d).isDigit = true := by
  unfold digitChar
  split_ifs <;> decide

/-- Little-endian decimal digits of a natural number. -/
def revDigits (n : ℕ) : List Char :=
  if n < 10 then [digitChar n]
  else digitChar (n % 10) :: revDigits (n / 10)
termination_by n
decreasing_by exact Nat.div_lt_self (by omega) (by omega)

/-- Value of a little-endian digit list. -/
def parseRev : List Char → ℕ
  | [] => 0
  | c :: cs => charVal c + 10 * parseRev cs

theorem parseRev_revDigits (n : ℕ) : parseRev (revDigits n) = n := by
  induction n using Nat.strong_induction_on with
  | _ n ih =>
    rw [revDigits]
    split_ifs with h
    · simp [parseRev, charVal_digitChar h]
    · rw [parseRev, ih (n / 10) (Nat.div_lt_self (by omega) (by omega)),
        charVal_digitChar (Nat.mod_lt n (by omega))]
      omega

theorem revDigits_digits (n : ℕ) : ∀ c ∈ revDigits n, c.isDigit = true := by
  induction n using Nat.strong_induction_on with
  | _ n ih =>
    rw [revDigits]
    split_ifs with h
    · intro c hc
      rw [List.mem_singleton] at hc
      subst hc
      exact digitChar_isDigit n
    · intro c hc
      rcases List.mem_cons.mp hc with h1 | h2
      · subst h1
        exact digitChar_isDigit _
      · exact ih (n / 10) (Nat.div_lt_self (by omega) (by omega)) c h2

theorem parseRev_replicate_zero (k : ℕ) : parseRev (List.replicate k '0') = 0 := by
  induction k with
  | zero => rfl
  | succ k ih =>
      rw [List.replicate_succ]
      show charVal '0' + 10 * parseRev (List.replicate k '0') = 0
      rw [ih]
      decide

theorem parseRev_append_zeros (l : List Char) (k : ℕ) :
    parseRev (l ++ List.replicate k '0') = parseRev l := by
  induction l with
  | nil =>
      simp only [List.nil_append]
      rw [parseRev_replicate_zero]
      rfl
  | cons c cs ih =>
      simp only [List.cons_append]
      rw [parseRev, parseRev, ih]

/-- Zero-padded decimal rendering of the 03d format specifier. -/
def pad3Chars (n : ℕ) : List Char :=
  List.replicate (3 - (revDigits n).length) '0' ++ (revDigits n).reverse

theorem parseRev_reverse_pad3 (n : ℕ) : parseRev ((pad3Chars n).reverse) = n := by
  unfold pad3Chars
  rw [List.reverse_append, List.reverse_reverse, List.reverse_replicate,
    parseRev_append_zeros, parseRev_revDigits]

theorem pad3Chars_digits (n : ℕ) : ∀ c ∈ pad3Chars n, c.isDigit = true := by
  intro c hc
  unfold pad3Chars at hc
  rcases List.mem_append.mp hc with h | h
  · rw [List.eq_of_mem_replicate h]
    decide
  · exact revDigits_digits n c (List.mem_reverse.mp h)

theorem takeWhile_digits_append (p : Char → Bool) (l1 : List Char) (x : Char)
    (l2 : List Char) (h1 : ∀ c ∈ l1, p c = true) (hx : p x = false) :
    (l1 ++ x :: l2).takeWhile p = l1 := by
  induction l1 with
  | nil => simp [List.takeWhile_cons, hx]
  | cons a as ih =>
      have ha : p a = true := h1 a (List.mem_cons_self a as)
      simp [List.takeWhile_cons, ha,
        ih (fun c hc => h1 c (List.mem_cons_of_mem a hc))]

/-- Brand codes of generate_property_id. -/
def brandCode : Brand → String
  | .DaysInn => "DAYS"
  | .Super8 => "SUP8"
  | .Ramada => "RAMA"
  | .Wyndham => "WYND"
  | .Baymont => "BAYMT"
  | .Travelodge => "TRAV"
  | .HowardJohnson => "HOJO"
  | .Wingate => "WING"

/-- Region codes of generate_property_id. -/
def regionCode : Region → String
  | .Northeast => "NE"
  | .Southeast => "SE"
  | .Midwest => "MW"
  | .Southwest => "SW"
  | .West => "W"
  | .CentralCanada => "CC"
  | .EasternCanada => "EC"
  | .WesternCanada => "WC"

/-- Characters of a property id WYN_{brand code}_{region code}_{zero-padded
sequence}. -/
def propertyIdChars (b : Brand) (r : Region) (n : ℕ) : List Char :=
  ("WYN_" ++ brandCode b ++ "_" ++ regionCode r).data ++ '_' :: pad3Chars n

/-- Property id generated by generate_property_id. -/
def propertyId (b : Brand) (r : Region) (n : ℕ) : String :=
  String.mk (propertyIdChars b r n)

/-- Sequence number recovered from a property id: the value of the trailing
digit run. -/
def seqOfId (s : String) : ℕ :=
  parseRev (s.data.reverse.takeWhile Char.isDigit)

theorem seqOfId_propertyId (b : Brand) (r : Region) (n : ℕ) :
    seqOfId (propertyId b r n) = n := by
  unfold seqOfId propertyId propertyIdChars
  rw [show (String.mk (("WYN_" ++ brandCode b ++ "_" ++ regionCode r).data ++
      '_' :: pad3Chars n)).data = ("WYN_" ++ brandCode b ++ "_" ++ regionCode r).data ++
      '_' :: pad3Chars n from rfl]
  rw [List.reverse_append, List.reverse_cons, List.append_assoc, List.singleton_append]
  rw [takeWhile_digits_append Char.isDigit _ '_' _
    (fun c hc => pad3Chars_digits n c (List.mem_reverse.mp hc)) (by decide)]
  exact parseRev_reverse_pad3 n

/-- Fields of a generated property that the C8 claim constrains (name, rooms,
geography, ownership and market are independent draws from the same loop
iteration and do not affect the id or the regional count). -/
structure Property where
  property_id : String
  brand : Brand
  region : Region
  deriving Repr

/-- One generated property: id from the running counter, brand from the draw,
region from the enclosing loop. -/
def mkProperty (b : Brand) (r : Region) (counter : ℕ) : Property :=
  { property_id := propertyId b r counter, brand := b, region := r }

/-- The while loop of one region: creates properties until the regional target
is reached, incrementing the global id counter each time (pick abstracts the
per-iteration random brand choice, indexed by the counter). -/
def genRegion (pick : ℕ → Brand) (r : Region) : ℕ → ℕ → List Property
  | 0, _ => []
  | t + 1, c => mkProperty (pick c) r c :: genRegion pick r t (c + 1)

/-- Target properties per region, from regional_distribution. -/
def regionalDistribution : List (Region × ℕ) :=
  [(.Northeast, 140), (.Southeast, 160), (.West, 130), (.Southwest, 110),
   (.Midwest, 120), (.CentralCanada, 80), (.EasternCanada, 80), (.WesternCanada, 80)]

/-- Regional target as a function. -/
def regionalTarget : Region → ℕ
  | .Northeast => 140
  | .Southeast => 160
  | .West => 130
  | .Southwest => 110
  | .Midwest => 120
  | .CentralCanada => 80
  | .EasternCanada => 80
  | .WesternCanada => 80

/-- The outer loop of generate_properties_master over the regional
distribution, threading the global property id counter. -/
def genPropertiesAux (pick : ℕ → Brand) : List (Region × ℕ) → ℕ → List Property
  | [], _ => []
  | (r, t) :: rest, c => genRegion pick r t c ++ genPropertiesAux pick rest (c + t)

/-- Embedding of generate_properties_master (the counter starts at 1). -/
def generatePropertiesMaster (pick : ℕ → Brand) : List Property :=
  genPropertiesAux pick regionalDistribution 1

theorem genRegion_countP (pick : ℕ → Brand) (r : Region) (t c : ℕ) (r2 : Region) :
    (genRegion pick r t c).countP (fun p => decide (p.region = r2)) =
      if r2 = r then t else 0 := by
  induction t generalizing c with
  | zero =>
      simp only [genRegion, List.countP_nil]
      split_ifs <;> rfl
  | succ t ih =>
      rw [genRegion, List.countP_cons, ih]
      by_cases h : r2 = r
      · simp [mkProperty, h]
      · have h2 : ¬(r = r2) := fun hh => h hh.symm
        simp [mkProperty, h, h2]

theorem genRegion_map_seq (pick : ℕ → Brand) (r : Region) (t c : ℕ) :
    (genRegion pick r t c).map (fun p => seqOfId p.property_id) = List.range' c t := by
  induction t generalizing c with
  | zero => rfl
  | succ t ih =>
      rw [genRegion, List.map_cons, ih, List.range'_succ]
      rw [show seqOfId (mkProperty (pick c) r c).property_id = c from seqOfId_propertyId _ _ _]

/-- Total target of a suffix of the regional distribution. -/
def sumTargets : List (Region × ℕ) → ℕ
  | [] => 0
  | (_, t) :: rest => t + sumTargets rest

theorem genPropertiesAux_map_seq (pick : ℕ → Brand) (l : List (Region × ℕ)) (c : ℕ) :
    (genPropertiesAux pick l c).map (fun p => seqOfId p.property_id) =
      List.range' c (sumTargets l) := by
  induction l generalizing c with
  | nil => rfl
  | cons hd rest ih =>
      obtain ⟨r, t⟩ := hd
      rw [genPropertiesAux, List.map_append, genRegion_map_seq, ih]
      have happ := List.range'_append c t (sumTargets rest) 1
      rw [sumTargets]
      rw [Nat.one_mul] at happ
      rw [Nat.add_comm t (sumTargets rest)]
      exact happ

/-- C8: for every region, generate_properties_master produces exactly the
configured regional target number of properties with that region, and all
generated property ids are pairwise distinct. -/
theorem generateProperties_counts_and_ids (pick : ℕ → Brand) (r : Region) :
    (generatePropertiesMaster pick).countP (fun p => decide (p.region = r)) =
      regionalTarget r ∧
    ((generatePropertiesMaster pick).map (fun p => p.property_id)).Nodup := by
  constructor
  · show (genPropertiesAux pick regionalDistribution 1).countP _ = _
    simp only [regionalDistribution, genPropertiesAux, List.countP_append,
      genRegion_countP, List.countP_nil]
    cases r <;> simp [regionalTarget]
  · apply List.Nodup.of_map (fun s => seqOfId s)
    rw [List.map_map]
    rw [show ((fun s => seqOfId s) ∘ fun p : Property => p.property_id) =
      (fun p : Property => seqOfId p.property_id) from rfl]
    rw [show generatePropertiesMaster pick = genPropertiesAux pick regionalDistribution 1
      from rfl]
    rw [genPropertiesAux_map_seq]
    exact List.nodup_range' _ _

end HotelRev
